import Mathlib

/-!
Verification of the seismic-viewer geometry/orientation engine
(`src/frontend/vite-project/src/App.jsx` and `src/Plotly.js/frontend/App.jsx`).

The two App.jsx files agree on all the logic verified here (slice builders,
debounce scheduler, compass sync, amplitude range, middle-index reset); the
embedding below follows the `frontend/vite-project` copy, whose line numbers
are cited in the doc comments.

Numeric values are modelled as rationals; JavaScript `undefined`/`null` cells
are modelled as `Option` values (with `none` for a missing or null cell, and
out-of-range array reads producing `none` just as JS reads produce
`undefined`).  Camera angles use real numbers since the compass formula
involves `atan2`.
-/

namespace SeismicViewer

/-- `AxisRange` record of `CubeInfo` (`{min, max, count}`). -/
structure AxisRange where
  min : ℚ
  max : ℚ
  count : ℕ
deriving DecidableEq

/-- The parts of `cube_info` the slice builders use: `shape` and the three
axis ranges (App.jsx uses `cubeInfo.shape`, `inline_range`, `xline_range`,
`sample_range`). -/
structure CubeInfo where
  shape0 : ℕ
  shape1 : ℕ
  shape2 : ℕ
  inline_range : AxisRange
  xline_range : AxisRange
  sample_range : AxisRange
deriving DecidableEq

/-- A slice-fetch response: `{data, coordinates: {x, y}}`.  A cell of `data`
is `none` when the server delivered `null` (or the row is ragged and the read
falls off the end, which JS reports as `undefined`). -/
structure SliceResponse where
  data : List (List (Option ℚ))
  coordX : List ℚ
  coordY : List ℚ
deriving DecidableEq

/-- JS transpose idiom `data[0].map((_, col) => data.map(row => row[col]))`
(App.jsx:497).  Out-of-range reads `row[col]` give `undef`, as JS gives
`undefined`. -/
def jsTranspose {α : Type} (undef : α) (m : List (List α)) : List (List α) :=
  (List.range (m.headD []).length).map (fun c => m.map (fun row => row.getD c undef))

/-- CoordinateNormalizer as inlined in each builder (App.jsx:496-498): if
`data.length == coordsA.length && data[0].length == coordsB.length` the
matrix is transposed, otherwise it is used as-is. -/
def normalizeSlice {α : Type} (undef : α) (m : List (List α))
    (coordsA coordsB : List ℚ) : List (List α) :=
  if m.length = coordsA.length ∧ (m.headD []).length = coordsB.length then
    jsTranspose undef m
  else m

/-- The sentinel amplitude `-0.999` substituted for missing/null cells
(App.jsx:516). -/
def sentinel : ℚ := -(999 / 1000)

/-- Per-cell amplitude read (App.jsx:516-519): `-0.999` unless row `i`
exists and `matrix[i][j]` is neither `undefined` nor `null`, in which case
the numeric value itself. -/
def cellAmplitude (m : List (List (Option ℚ))) (i j : ℕ) : ℚ :=
  ((m.getD i []).getD j none).getD sentinel

example : cellAmplitude [[some 5, none]] 0 0 = 5 := by decide
example : cellAmplitude [[some 5, none]] 0 1 = sentinel := rfl
example : cellAmplitude [[some 5, none]] 3 0 = sentinel := rfl

example :
    normalizeSlice (none : Option ℚ) [[some 1, some 2], [some 3, some 4], [some 5, some 6]]
      [0, 1, 2] [10, 20] =
      [[some 1, some 3, some 5], [some 2, some 4, some 6]] := by decide

/-- Slice-plane value for the inline axis (App.jsx:485):
`cubeInfo.inline_range.min + sliceIndices.inline`. -/
def inlineSliceVal (ci : CubeInfo) (idx : ℕ) : ℚ :=
  ci.inline_range.min + idx

/-- Slice-plane value for the crossline axis (App.jsx:569):
`cubeInfo.xline_range.min + sliceIndices.xline`. -/
def xlineSliceVal (ci : CubeInfo) (idx : ℕ) : ℚ :=
  ci.xline_range.min + idx

/-- Slice-plane value for the sample axis (App.jsx:653-654):
`sample_range.min + index * (max - min) / (count - 1)`. -/
def sampleSliceVal (ci : CubeInfo) (idx : ℕ) : ℚ :=
  ci.sample_range.min +
    idx * (ci.sample_range.max - ci.sample_range.min) / ((ci.sample_range.count : ℚ) - 1)

/-- The geometric payload of one surface trace: the three mesh grids, the
hover-amplitude grid, and the `surfacecolor` matrix (the normalized slice
matrix itself, App.jsx:536). -/
structure MeshTrace where
  xMesh : List (List ℚ)
  yMesh : List (List ℚ)
  zMesh : List (List ℚ)
  ampMatrix : List (List ℚ)
  surfacecolor : List (List (Option ℚ))
deriving DecidableEq

/-- Mesh construction of `createInlineSlice` (App.jsx:481-529).
`coordinates.x` are the crossline coordinates, `coordinates.y` the sample
coordinates; the outer loop runs over `sampleCoords` (rows), the inner over
`xlineCoords` (columns); `y` is held at the committed inline value. -/
def buildInlineTrace (ci : CubeInfo) (idx : ℕ) (resp : SliceResponse) : MeshTrace :=
  let v := inlineSliceVal ci idx
  let m := normalizeSlice none resp.data resp.coordX resp.coordY
  { xMesh := resp.coordY.map (fun _ => resp.coordX)
    yMesh := resp.coordY.map (fun _ => resp.coordX.map (fun _ => v))
    zMesh := resp.coordY.map (fun s => resp.coordX.map (fun _ => s))
    ampMatrix := (List.range resp.coordY.length).map
      (fun i => (List.range resp.coordX.length).map (fun j => cellAmplitude m i j))
    surfacecolor := m }

/-- Mesh construction of `createXlineSlice` (App.jsx:565-613).
`coordinates.x` are the inline coordinates, `coordinates.y` the sample
coordinates; `x` is held at the committed crossline value. -/
def buildXlineTrace (ci : CubeInfo) (idx : ℕ) (resp : SliceResponse) : MeshTrace :=
  let v := xlineSliceVal ci idx
  let m := normalizeSlice none resp.data resp.coordX resp.coordY
  { xMesh := resp.coordY.map (fun _ => resp.coordX.map (fun _ => v))
    yMesh := resp.coordY.map (fun _ => resp.coordX)
    zMesh := resp.coordY.map (fun s => resp.coordX.map (fun _ => s))
    ampMatrix := (List.range resp.coordY.length).map
      (fun i => (List.range resp.coordX.length).map (fun j => cellAmplitude m i j))
    surfacecolor := m }

/-- Mesh construction of `createSampleSlice` (App.jsx:649-699).
`coordinates.x` are the inline coordinates, `coordinates.y` the crossline
coordinates.  Note the transposition check (App.jsx:666) compares rows
against `xlineCoords` (= `coordinates.y`) and columns against `inlineCoords`
(= `coordinates.x`), and the outer loop runs over `inlineCoords`
(= `coordinates.x`); `z` is held at the committed sample value. -/
def buildSampleTrace (ci : CubeInfo) (idx : ℕ) (resp : SliceResponse) : MeshTrace :=
  let v := sampleSliceVal ci idx
  let m := normalizeSlice none resp.data resp.coordY resp.coordX
  { xMesh := resp.coordX.map (fun _ => resp.coordY)
    yMesh := resp.coordX.map (fun a => resp.coordY.map (fun _ => a))
    zMesh := resp.coordX.map (fun _ => resp.coordY.map (fun _ => v))
    ampMatrix := (List.range resp.coordX.length).map
      (fun i => (List.range resp.coordY.length).map (fun j => cellAmplitude m i j))
    surfacecolor := m }

/-- `createInlineSlice` returns `null` when the payload has no usable 2-D
matrix (`!Array.isArray(sliceMatrix[0])`, App.jsx:488-491); the typed
embedding hits this exactly when `data` is empty. -/
def createInlineSlice (ci : CubeInfo) (idx : ℕ) (resp : SliceResponse) : Option MeshTrace :=
  if resp.data.isEmpty then none else some (buildInlineTrace ci idx resp)

/-- `createXlineSlice` with the same degenerate-payload guard. -/
def createXlineSlice (ci : CubeInfo) (idx : ℕ) (resp : SliceResponse) : Option MeshTrace :=
  if resp.data.isEmpty then none else some (buildXlineTrace ci idx resp)

/-- `createSampleSlice` with the same degenerate-payload guard. -/
def createSampleSlice (ci : CubeInfo) (idx : ℕ) (resp : SliceResponse) : Option MeshTrace :=
  if resp.data.isEmpty then none else some (buildSampleTrace ci idx resp)

/-- The three slice axes. -/
inductive SliceType where
  | inl
  | xl
  | smp
deriving DecidableEq

/-- One integer per slice axis (the shape of `sliceIndices` and
`pendingSliceIndices`). -/
structure SliceIndices where
  inl : ℕ
  xl : ℕ
  smp : ℕ
deriving DecidableEq

/-- Read the index of one axis. -/
def SliceIndices.get (s : SliceIndices) : SliceType → ℕ
  | .inl => s.inl
  | .xl => s.xl
  | .smp => s.smp

/-- The spread-update `{...prev, [sliceType]: index}` (App.jsx:187-190). -/
def SliceIndices.set (s : SliceIndices) : SliceType → ℕ → SliceIndices
  | .inl, i => { s with inl := i }
  | .xl, i => { s with xl := i }
  | .smp, i => { s with smp := i }

/-- State touched by the debounce scheduler: the pending and committed index
triples, the single `debounceTimerRef` (holding the axis and index whose
commit is scheduled, or `none`), and the log of fetches issued so far. -/
structure SchedulerState where
  pending : SliceIndices
  committed : SliceIndices
  timer : Option (SliceType × ℕ)
  fetched : List (SliceType × ℕ)
deriving DecidableEq

/-- `handleSliceChange` (App.jsx:186-217): immediately update the pending
index for the axis, clear whatever timer `debounceTimerRef` currently holds
(whatever axis it belongs to), and arm the single timer with this axis and
index. -/
def handleSliceChange (s : SchedulerState) (t : SliceType) (i : ℕ) : SchedulerState :=
  { s with pending := s.pending.set t i, timer := some (t, i) }

/-- The debounce timer firing uninterrupted (the `setTimeout` body,
App.jsx:198-216): commit the stored index and issue the fetch for that axis.
If no timer is armed, nothing happens. -/
def fireDebounce (s : SchedulerState) : SchedulerState :=
  match s.timer with
  | none => s
  | some (t, i) =>
      { s with committed := s.committed.set t i
               fetched := s.fetched ++ [(t, i)]
               timer := none }

/-- The scheduler as it stands before any slider interaction. -/
def initScheduler (idx : SliceIndices) : SchedulerState :=
  { pending := idx, committed := idx, timer := none, fetched := [] }

/-- State of the amplitude-range controller: the `amplitudeInitialized` ref,
the two quantiles, the base range delivered by the last dataset load
(`display_min`/`display_max` of `cube_info.amplitude_range`), and the
`vmin`/`vmax` display range. -/
structure AmpState where
  initialized : Bool
  minQuantile : ℚ
  maxQuantile : ℚ
  base : Option (ℚ × ℚ)
  vmin : Option ℚ
  vmax : Option ℚ
deriving DecidableEq

/-- Body of the amplitude-range effect (App.jsx:95-112): with a loaded cube,
the first run baselines `vmin`/`vmax` to the full base range and sets the
initialized flag; later runs apply the quantile-clipping formula. -/
def ampRangeEffect (s : AmpState) : AmpState :=
  match s.base with
  | none => s
  | some (bMin, bMax) =>
      if s.initialized then
        { s with vmin := some (bMin + (bMax - bMin) * s.minQuantile)
                 vmax := some (bMin + (bMax - bMin) * s.maxQuantile) }
      else
        { s with vmin := some bMin, vmax := some bMax, initialized := true }

/-- A successful dataset load or switch (App.jsx:114-164 and 230-273): the
`amplitudeInitialized` ref is reset and `vmin`/`vmax` cleared before the
upload, then `setCubeInfo` delivers the new base range and the effect
re-runs. -/
def loadDataset (s : AmpState) (bMin bMax : ℚ) : AmpState :=
  ampRangeEffect
    { s with initialized := false, vmin := none, vmax := none, base := some (bMin, bMax) }

/-- A quantile edit: the quantile state changes and the effect re-runs. -/
def setQuantiles (s : AmpState) (q Q : ℚ) : AmpState :=
  ampRangeEffect { s with minQuantile := q, maxQuantile := Q }

/-- The camera eye vector delivered by the engine. -/
structure CameraEye where
  x : ℝ
  y : ℝ
  z : ℝ

/-- JavaScript `Math.atan2(y, x)`, the angle of the point `(x, y)` in
`(-π, π]`, embedded as the complex argument. -/
noncomputable def atan2 (y x : ℝ) : ℝ :=
  Complex.arg (Complex.I * y + x)

/-- `cameraAzimuth` (App.jsx:279): `Math.atan2(eye.y, eye.x) * (180 / π)`. -/
noncomputable def cameraAzimuth (eye : CameraEye) : ℝ :=
  atan2 eye.y eye.x * (180 / Real.pi)

/-- `updateCompass` (App.jsx:275-286): the compass rotation written to state
is `-cameraAzimuth + 45`. -/
noncomputable def updateCompass (eye : CameraEye) : ℝ :=
  -cameraAzimuth eye + 45

/-- One tick of the reconciliation poll (App.jsx:425-437): recompute the
expected compass angle from the current eye; if it differs from the current
compass rotation by more than `0.1`, run `updateCompass`, otherwise leave
the rotation alone. -/
noncomputable def pollTick (eye : CameraEye) (compassRotation : ℝ) : ℝ :=
  if |(-cameraAzimuth eye + 45) - compassRotation| > 1 / 10 then updateCompass eye
  else compassRotation

/-- Result of resolving the north arrow: either the degenerate fallback (the
default arrow along the plot's secondary axis, carrying the distinguishable
"unknown" marker) or a properly resolved direction `(a, b)` in
(inline, crossline) coordinates. -/
inductive NorthArrow where
  | fallback
  | resolved (a b : ℚ)
deriving DecidableEq

/-- Modelled from the spec: OrientationResolver (spec §4.3) has no code under
`src/`; only `cube_info.orientation` reaches the frontend.  Following the
spec's words: solve `north = a·inlineVector + b·xlineVector` by Cramer's
rule with `det = inline.x*xline.y - inline.y*xline.x`; if `|det| < ε` return
the fallback arrow without touching `det` again; otherwise divide by `det`
to obtain `(a, b)`.  (The spec then rescales `(a, b)` to unit length, which
does not affect the degenerate path verified here.) -/
def orientationResolve (iv xv : ℚ × ℚ) (eps : ℚ) : NorthArrow :=
  let north : ℚ × ℚ := (0, 1)
  let det := iv.1 * xv.2 - iv.2 * xv.1
  if |det| < eps then NorthArrow.fallback
  else
    NorthArrow.resolved ((north.1 * xv.2 - north.2 * xv.1) / det)
      ((iv.1 * north.2 - iv.2 * north.1) / det)

/-- The middle-slice reset after a successful upload or dataset switch
(App.jsx:149-155 and 258-264): `Math.floor(shape[d] / 2)` per axis. -/
def middleIndices (ci : CubeInfo) : SliceIndices :=
  { inl := ci.shape0 / 2, xl := ci.shape1 / 2, smp := ci.shape2 / 2 }

/-- The index-state update performed by `handleFileUpload`/`handleFileSwitch`
on success: both `sliceIndices` and `pendingSliceIndices` are set to the
middle indices. -/
def applyUploadIndices (ci : CubeInfo) (s : SchedulerState) : SchedulerState :=
  { s with pending := middleIndices ci, committed := middleIndices ci }

/-! ## Lemmas about the normalizer -/

lemma jsTranspose_length {α : Type} (undef : α) (m : List (List α)) :
    (jsTranspose undef m).length = (m.headD []).length := by
  simp [jsTranspose]

lemma jsTranspose_mem_length {α : Type} (undef : α) (m : List (List α)) :
    ∀ row ∈ jsTranspose undef m, row.length = m.length := by
  intro row hrow
  simp only [jsTranspose, List.mem_map, List.mem_range] at hrow
  obtain ⟨c, _, rfl⟩ := hrow
  simp

lemma jsTranspose_getD {α : Type} (undef : α) (m : List (List α)) {i j : ℕ}
    (hi : i < (m.headD []).length) (hj : j < m.length) :
    ((jsTranspose undef m).getD i []).getD j undef = (m.getD j []).getD i undef := by
  unfold jsTranspose
  simp only [List.getD_eq_getElem?_getD, List.getElem?_map, List.getElem?_range hi,
    List.getElem?_eq_getElem hj, Option.map_some', Option.getD_some]

/-- A response whose matrix is rectangular and sized to match the coordinate
arrays in one of the two possible row/column orientations (the spec leaves
the pre-normalization orientation unspecified). -/
def orientedResponse (resp : SliceResponse) : Prop :=
  (resp.data.length = resp.coordY.length ∧
      ∀ row ∈ resp.data, row.length = resp.coordX.length) ∨
    (resp.data.length = resp.coordX.length ∧
      ∀ row ∈ resp.data, row.length = resp.coordY.length)

instance (resp : SliceResponse) : Decidable (orientedResponse resp) := by
  unfold orientedResponse; infer_instance

/-- Shape of the normalized matrix: whichever orientation the (nonempty)
input matrix arrives in, after `normalizeSlice undef m a b` the rows are
indexed by `b` and the columns by `a`. -/
lemma normalizeSlice_shape {α : Type} (undef : α) (m : List (List α)) (a b : List ℚ)
    (hne : m ≠ [])
    (h : (m.length = b.length ∧ ∀ row ∈ m, row.length = a.length) ∨
      (m.length = a.length ∧ ∀ row ∈ m, row.length = b.length)) :
    (normalizeSlice undef m a b).length = b.length ∧
      ∀ row ∈ normalizeSlice undef m a b, row.length = a.length := by
  unfold normalizeSlice
  by_cases hc : m.length = a.length ∧ (m.headD []).length = b.length
  · rw [if_pos hc]
    refine ⟨by rw [jsTranspose_length, hc.2], ?_⟩
    intro row hrow
    rw [jsTranspose_mem_length undef m row hrow, hc.1]
  · rw [if_neg hc]
    rcases h with ⟨h1, h2⟩ | ⟨h1, h2⟩
    · exact ⟨h1, h2⟩
    · exfalso
      apply hc
      refine ⟨h1, ?_⟩
      cases m with
      | nil => exact absurd rfl hne
      | cons r rs => exact h2 r (List.mem_cons_self r rs)

/-- C6: the CoordinateNormalizer contract.  For a rectangular matrix whose
rows match `coordsA` and columns match `coordsB` (the swapped convention),
`normalizeSlice` transposes: the result has `coordsB.length` rows, every row
has `coordsA.length` entries, and entry `(i, j)` is entry `(j, i)` of the
input.  If the dimension test fails the matrix is returned unchanged. -/
theorem normalizeSlice_transposes_or_id (m : List (List (Option ℚ))) (a b : List ℚ) :
    ((∀ row ∈ m, row.length = b.length) → m.length = a.length →
      (m.headD []).length = b.length →
      (normalizeSlice none m a b).length = b.length ∧
        (∀ row ∈ normalizeSlice none m a b, row.length = a.length) ∧
        ∀ i j, i < b.length → j < a.length →
          ((normalizeSlice none m a b).getD i []).getD j none =
            (m.getD j []).getD i none) ∧
    (¬(m.length = a.length ∧ (m.headD []).length = b.length) →
      normalizeSlice none m a b = m) := by
  constructor
  · intro _ hlen hhead
    have hc : m.length = a.length ∧ (m.headD []).length = b.length := ⟨hlen, hhead⟩
    have heq : normalizeSlice none m a b = jsTranspose none m := by
      unfold normalizeSlice; rw [if_pos hc]
    refine ⟨?_, ?_, ?_⟩
    · rw [heq, jsTranspose_length, hhead]
    · intro row hrow
      rw [heq] at hrow
      rw [jsTranspose_mem_length none m row hrow, hlen]
    · intro i j hi hj
      rw [heq]
      exact jsTranspose_getD none m (by rwa [hhead]) (by rwa [hlen])
  · intro hc
    unfold normalizeSlice
    rw [if_neg hc]

/-- Witness for `normalizeSlice_transposes_or_id` on a concrete 2×3 matrix
arriving in the swapped orientation. -/
theorem normalizeSlice_transposes_or_id_witness :
    (normalizeSlice (none : Option ℚ)
        [[some 1, some 2, some 3], [some 4, some 5, some 6]] [0, 1] [0, 1, 2]).length = 3 ∧
      ((normalizeSlice (none : Option ℚ)
          [[some 1, some 2, some 3], [some 4, some 5, some 6]] [0, 1] [0, 1, 2]).getD 2 []).getD
          1 none =
        (([[some 1, some 2, some 3],
              [some 4, some 5, some 6]] : List (List (Option ℚ))).getD 1 []).getD 2 none := by
  have h := (normalizeSlice_transposes_or_id
    [[some 1, some 2, some 3], [some 4, some 5, some 6]] [0, 1] [0, 1, 2]).1
    (by decide) (by decide) (by decide)
  exact ⟨h.1, h.2.2 2 1 (by decide) (by decide)⟩

/-! ## C1: shape of the matrix actually indexed by the mesh loops -/

/-- A small concrete cube used by concrete evaluations. -/
def testCube : CubeInfo :=
  { shape0 := 2, shape1 := 3, shape2 := 4
    inline_range := { min := 10, max := 11, count := 2 }
    xline_range := { min := 20, max := 22, count := 3 }
    sample_range := { min := 0, max := 30, count := 4 } }

/-- A concrete sample-slice response: `coordinates.x` (inline) has 2 entries,
`coordinates.y` (crossline) has 3, and the matrix arrives with 3 rows of 2
cells, i.e. rows indexed by `coordinates.y` — the very orientation the
claimed invariant promises after normalization. -/
def sampleRespCtr : SliceResponse :=
  { data := [[some 1, some 2], [some 3, some 4], [some 5, some 6]]
    coordX := [0, 1]
    coordY := [10, 20, 30] }

/-- C1 fails as stated: for the sample slice the builder transposes *away*
from the claimed orientation.  On `sampleRespCtr` (which satisfies
`data.length == coordinates.y.length` and `data[0].length ==
coordinates.x.length` on arrival) the matrix indexed by the mesh loops ends
up with `coordinates.x.length = 2` rows, not `coordinates.y.length = 3`. -/
theorem sample_slice_breaks_claimed_invariant :
    sampleRespCtr.data.length = sampleRespCtr.coordY.length ∧
      (∀ row ∈ sampleRespCtr.data, row.length = sampleRespCtr.coordX.length) ∧
      (buildSampleTrace testCube 0 sampleRespCtr).surfacecolor =
        [[some 1, some 3, some 5], [some 2, some 4, some 6]] ∧
      (buildSampleTrace testCube 0 sampleRespCtr).surfacecolor.length = 2 ∧
      sampleRespCtr.coordY.length = 3 ∧
      (buildSampleTrace testCube 0 sampleRespCtr).surfacecolor.length ≠
        sampleRespCtr.coordY.length := by
  decide

/-- C1 as the code has it: for a nonempty matrix arriving in either of the
two admissible orientations, the inline and crossline builders index a
matrix with `coordinates.y.length` rows of `coordinates.x.length` cells
(as claimed), while the sample builder indexes a matrix with
`coordinates.x.length` rows of `coordinates.y.length` cells (the claim with
the two coordinate arrays swapped). -/
theorem slice_matrix_shape_after_normalization (ci : CubeInfo) (i1 i2 i3 : ℕ)
    (resp : SliceResponse) (hne : resp.data ≠ []) (h : orientedResponse resp) :
    ((buildInlineTrace ci i1 resp).surfacecolor.length = resp.coordY.length ∧
        ∀ row ∈ (buildInlineTrace ci i1 resp).surfacecolor,
          row.length = resp.coordX.length) ∧
      ((buildXlineTrace ci i2 resp).surfacecolor.length = resp.coordY.length ∧
        ∀ row ∈ (buildXlineTrace ci i2 resp).surfacecolor,
          row.length = resp.coordX.length) ∧
      ((buildSampleTrace ci i3 resp).surfacecolor.length = resp.coordX.length ∧
        ∀ row ∈ (buildSampleTrace ci i3 resp).surfacecolor,
          row.length = resp.coordY.length) := by
  have hIX : (buildInlineTrace ci i1 resp).surfacecolor =
      normalizeSlice none resp.data resp.coordX resp.coordY := rfl
  have hXL : (buildXlineTrace ci i2 resp).surfacecolor =
      normalizeSlice none resp.data resp.coordX resp.coordY := rfl
  have hSM : (buildSampleTrace ci i3 resp).surfacecolor =
      normalizeSlice none resp.data resp.coordY resp.coordX := rfl
  refine ⟨?_, ?_, ?_⟩
  · rw [hIX]
    exact normalizeSlice_shape none resp.data resp.coordX resp.coordY hne h
  · rw [hXL]
    exact normalizeSlice_shape none resp.data resp.coordX resp.coordY hne h
  · rw [hSM]
    exact normalizeSlice_shape none resp.data resp.coordY resp.coordX hne h.symm

/-- Witness for `slice_matrix_shape_after_normalization` at a concrete
oriented response. -/
theorem slice_matrix_shape_after_normalization_witness :
    (buildInlineTrace testCube 0 sampleRespCtr).surfacecolor.length =
        sampleRespCtr.coordY.length ∧
      (buildSampleTrace testCube 0 sampleRespCtr).surfacecolor.length =
        sampleRespCtr.coordX.length := by
  have h := slice_matrix_shape_after_normalization testCube 0 0 0 sampleRespCtr
    (by decide) (Or.inl (by decide))
  exact ⟨h.1.1, h.2.2.1⟩

/-! ## C5: mesh coordinates -/

lemma constGrid_getD (rows cols : List ℚ) (v d : ℚ) {i j : ℕ}
    (hi : i < rows.length) (hj : j < cols.length) :
    ((rows.map (fun _ => cols.map (fun _ => v))).getD i []).getD j d = v := by
  simp only [List.getD_eq_getElem?_getD, List.getElem?_map, List.getElem?_eq_getElem hi,
    List.getElem?_eq_getElem hj, Option.map_some', Option.getD_some]

lemma rowGrid_getD (rows cols : List ℚ) (d : ℚ) {i j : ℕ} (hi : i < rows.length) :
    ((rows.map (fun _ => cols)).getD i []).getD j d = cols.getD j d := by
  simp only [List.getD_eq_getElem?_getD, List.getElem?_map, List.getElem?_eq_getElem hi,
    Option.map_some', Option.getD_some]

lemma colGrid_getD (rows cols : List ℚ) (d : ℚ) {i j : ℕ}
    (hi : i < rows.length) (hj : j < cols.length) :
    ((rows.map (fun s => cols.map (fun _ => s))).getD i []).getD j d = rows.getD i d := by
  simp only [List.getD_eq_getElem?_getD, List.getElem?_map, List.getElem?_eq_getElem hi,
    List.getElem?_eq_getElem hj, Option.map_some', Option.getD_some]

/-- C5: in every mesh cell, the slice's own axis is held at the value implied
by the committed index (`min + index` for inline/xline, `min + index *
(max - min)/(count - 1)` for the sample axis) while the other two axes take
their values from the response's coordinate arrays. -/
theorem slice_plane_held_at_committed_value (ci : CubeInfo) (idx1 idx2 idx3 : ℕ)
    (resp : SliceResponse) (i j : ℕ) :
    (i < resp.coordY.length → j < resp.coordX.length →
      ((buildInlineTrace ci idx1 resp).yMesh.getD i []).getD j 0 =
          ci.inline_range.min + idx1 ∧
        ((buildInlineTrace ci idx1 resp).xMesh.getD i []).getD j 0 = resp.coordX.getD j 0 ∧
        ((buildInlineTrace ci idx1 resp).zMesh.getD i []).getD j 0 = resp.coordY.getD i 0) ∧
      (i < resp.coordY.length → j < resp.coordX.length →
        ((buildXlineTrace ci idx2 resp).xMesh.getD i []).getD j 0 =
            ci.xline_range.min + idx2 ∧
          ((buildXlineTrace ci idx2 resp).yMesh.getD i []).getD j 0 = resp.coordX.getD j 0 ∧
          ((buildXlineTrace ci idx2 resp).zMesh.getD i []).getD j 0 = resp.coordY.getD i 0) ∧
      (i < resp.coordX.length → j < resp.coordY.length →
        ((buildSampleTrace ci idx3 resp).zMesh.getD i []).getD j 0 =
            ci.sample_range.min + idx3 * (ci.sample_range.max - ci.sample_range.min) /
              ((ci.sample_range.count : ℚ) - 1) ∧
          ((buildSampleTrace ci idx3 resp).xMesh.getD i []).getD j 0 =
            resp.coordY.getD j 0 ∧
          ((buildSampleTrace ci idx3 resp).yMesh.getD i []).getD j 0 =
            resp.coordX.getD i 0) := by
  refine ⟨fun hi hj => ⟨?_, ?_, ?_⟩, fun hi hj => ⟨?_, ?_, ?_⟩, fun hi hj => ⟨?_, ?_, ?_⟩⟩
  · exact constGrid_getD resp.coordY resp.coordX (inlineSliceVal ci idx1) 0 hi hj
  · exact rowGrid_getD resp.coordY resp.coordX 0 hi
  · exact colGrid_getD resp.coordY resp.coordX 0 hi hj
  · exact constGrid_getD resp.coordY resp.coordX (xlineSliceVal ci idx2) 0 hi hj
  · exact rowGrid_getD resp.coordY resp.coordX 0 hi
  · exact colGrid_getD resp.coordY resp.coordX 0 hi hj
  · exact constGrid_getD resp.coordX resp.coordY (sampleSliceVal ci idx3) 0 hi hj
  · exact rowGrid_getD resp.coordX resp.coordY 0 hi
  · exact colGrid_getD resp.coordX resp.coordY 0 hi hj

/-- Witness for `slice_plane_held_at_committed_value` on concrete data:
inline plane at `10 + 1 = 11`, crossline plane at `20 + 2 = 22`, sample
plane at `0 + 2 * (30 - 0) / (4 - 1) = 20`. -/
theorem slice_plane_held_at_committed_value_witness :
    ((buildInlineTrace testCube 1 sampleRespCtr).yMesh.getD 0 []).getD 0 0 = 11 ∧
      ((buildXlineTrace testCube 2 sampleRespCtr).xMesh.getD 0 []).getD 0 0 = 22 ∧
      ((buildSampleTrace testCube 2 sampleRespCtr).zMesh.getD 0 []).getD 0 0 = 20 := by
  have h1 := (slice_plane_held_at_committed_value testCube 1 0 0 sampleRespCtr 0 0).1
    (by decide) (by decide)
  have h2 := (slice_plane_held_at_committed_value testCube 0 2 0 sampleRespCtr 0 0).2.1
    (by decide) (by decide)
  have h3 := (slice_plane_held_at_committed_value testCube 0 0 2 sampleRespCtr 0 0).2.2
    (by decide) (by decide)
  refine ⟨?_, ?_, ?_⟩
  · rw [h1.1]; norm_num [testCube]
  · rw [h2.1]; norm_num [testCube]
  · rw [h3.1]; norm_num [testCube]

/-! ## C7: sentinel amplitude for missing cells -/

lemma ampGrid_getD (m : List (List (Option ℚ))) (nR nC : ℕ) {i j : ℕ}
    (hi : i < nR) (hj : j < nC) :
    (((List.range nR).map
          (fun i => (List.range nC).map (fun j => cellAmplitude m i j))).getD i []).getD j 0 =
      cellAmplitude m i j := by
  simp only [List.getD_eq_getElem?_getD, List.getElem?_map, List.getElem?_range hi,
    List.getElem?_range hj, Option.map_some', Option.getD_some]

/-- C7: per-cell amplitude processing is total, substitutes `-0.999` exactly
when the cell (or its whole row) is missing or null, and otherwise passes
the numeric value through; and the amplitude grids the three builders emit
are pointwise given by this per-cell read of the normalized matrix. -/
theorem builder_emits_sentinel_for_missing_cells (m : List (List (Option ℚ))) (i j : ℕ)
    (ci : CubeInfo) (idx : ℕ) (resp : SliceResponse) :
    ((m.getD i []).getD j none = none → cellAmplitude m i j = -(999 / 1000)) ∧
      (∀ v : ℚ, (m.getD i []).getD j none = some v → cellAmplitude m i j = v) ∧
      (i < resp.coordY.length → j < resp.coordX.length →
        ((buildInlineTrace ci idx resp).ampMatrix.getD i []).getD j 0 =
            cellAmplitude (normalizeSlice none resp.data resp.coordX resp.coordY) i j ∧
          ((buildXlineTrace ci idx resp).ampMatrix.getD i []).getD j 0 =
            cellAmplitude (normalizeSlice none resp.data resp.coordX resp.coordY) i j) ∧
      (i < resp.coordX.length → j < resp.coordY.length →
        ((buildSampleTrace ci idx resp).ampMatrix.getD i []).getD j 0 =
          cellAmplitude (normalizeSlice none resp.data resp.coordY resp.coordX) i j) := by
  refine ⟨fun h => ?_, fun v h => ?_, fun hi hj => ⟨?_, ?_⟩, fun hi hj => ?_⟩
  · unfold cellAmplitude
    rw [h]
    rfl
  · unfold cellAmplitude
    rw [h]
    rfl
  · exact ampGrid_getD _ _ _ hi hj
  · exact ampGrid_getD _ _ _ hi hj
  · exact ampGrid_getD _ _ _ hi hj

/-- Witness for `builder_emits_sentinel_for_missing_cells`: a null cell, a
present cell, and a builder amplitude read on concrete data. -/
theorem builder_emits_sentinel_for_missing_cells_witness :
    cellAmplitude [[some 5, none]] 0 1 = -(999 / 1000) ∧
      cellAmplitude [[some 5, none]] 0 0 = 5 ∧
      ((buildInlineTrace testCube 0 sampleRespCtr).ampMatrix.getD 0 []).getD 0 0 =
        cellAmplitude (normalizeSlice none sampleRespCtr.data sampleRespCtr.coordX
          sampleRespCtr.coordY) 0 0 := by
  refine ⟨?_, ?_, ?_⟩
  · exact (builder_emits_sentinel_for_missing_cells [[some 5, none]] 0 1 testCube 0
      sampleRespCtr).1 rfl
  · exact (builder_emits_sentinel_for_missing_cells [[some 5, none]] 0 0 testCube 0
      sampleRespCtr).2.1 5 rfl
  · exact ((builder_emits_sentinel_for_missing_cells
      (normalizeSlice none sampleRespCtr.data sampleRespCtr.coordX sampleRespCtr.coordY)
      0 0 testCube 0 sampleRespCtr).2.2.1 (by decide) (by decide)).1

/-! ## C4: amplitude display-range lifecycle -/

/-- C4: on a (first) successful load the display range is baselined to the
full base range whatever the quantiles are; a subsequent quantile edit
applies `vmin = baseMin + (baseMax - baseMin) * minQ` and symmetrically for
`vmax`; and a dataset switch resets the initialized flag, so the next load
baselines again to the new full range. -/
theorem amplitude_range_lifecycle (s : AmpState) (bMin bMax q Q b2 B2 : ℚ) :
    ((loadDataset s bMin bMax).initialized = true ∧
        (loadDataset s bMin bMax).vmin = some bMin ∧
        (loadDataset s bMin bMax).vmax = some bMax) ∧
      ((setQuantiles (loadDataset s bMin bMax) q Q).vmin =
          some (bMin + (bMax - bMin) * q) ∧
        (setQuantiles (loadDataset s bMin bMax) q Q).vmax =
          some (bMin + (bMax - bMin) * Q)) ∧
      ((loadDataset (setQuantiles (loadDataset s bMin bMax) q Q) b2 B2).vmin = some b2 ∧
        (loadDataset (setQuantiles (loadDataset s bMin bMax) q Q) b2 B2).vmax = some B2) := by
  simp [loadDataset, setQuantiles, ampRangeEffect]

/-! ## C10: middle-index reset on upload and switch -/

/-- C10: after a successful upload or dataset switch both the committed and
pending index triples equal `floor(shape[d] / 2)` per axis, and each middle
index lies in `[0, shape[d] - 1]` whenever the corresponding shape entry is
at least 1. -/
theorem middle_indices_after_upload (ci : CubeInfo) (s : SchedulerState) :
    (applyUploadIndices ci s).committed = middleIndices ci ∧
      (applyUploadIndices ci s).pending = middleIndices ci ∧
      (middleIndices ci).inl = ci.shape0 / 2 ∧
      (middleIndices ci).xl = ci.shape1 / 2 ∧
      (middleIndices ci).smp = ci.shape2 / 2 ∧
      (1 ≤ ci.shape0 → (middleIndices ci).inl ≤ ci.shape0 - 1) ∧
      (1 ≤ ci.shape1 → (middleIndices ci).xl ≤ ci.shape1 - 1) ∧
      (1 ≤ ci.shape2 → (middleIndices ci).smp ≤ ci.shape2 - 1) := by
  refine ⟨rfl, rfl, rfl, rfl, rfl, ?_, ?_, ?_⟩ <;>
    · intro h
      simp only [middleIndices]
      omega

/-- Witness for `middle_indices_after_upload` on the concrete test cube
(shape 2 × 3 × 4, so middle indices 1, 1, 2). -/
theorem middle_indices_after_upload_witness :
    (applyUploadIndices testCube (initScheduler ⟨0, 0, 0⟩)).committed =
        ⟨1, 1, 2⟩ ∧
      (middleIndices testCube).inl ≤ testCube.shape0 - 1 ∧
      (middleIndices testCube).xl ≤ testCube.shape1 - 1 ∧
      (middleIndices testCube).smp ≤ testCube.shape2 - 1 := by
  have h := middle_indices_after_upload testCube (initScheduler ⟨0, 0, 0⟩)
  exact ⟨by rw [h.1]; decide, h.2.2.2.2.2.1 (by decide), h.2.2.2.2.2.2.1 (by decide),
    h.2.2.2.2.2.2.2 (by decide)⟩

/-! ## C2: the debounce timer is shared, not per-axis -/

/-- C2 fails as stated: a change on the crossline axis while the inline axis
has a pending timer cancels the inline timer.  Starting from the idle
scheduler, change inline to 5 and then (before any timer fires) crossline
to 7; letting every surviving timer fire commits only the crossline axis —
the inline index is never committed and its fetch is never issued. -/
theorem shared_debounce_counterexample :
    (fireDebounce (fireDebounce
          (handleSliceChange (handleSliceChange (initScheduler ⟨0, 0, 0⟩)
            SliceType.inl 5) SliceType.xl 7))).committed.inl = 0 ∧
      (fireDebounce (fireDebounce
          (handleSliceChange (handleSliceChange (initScheduler ⟨0, 0, 0⟩)
            SliceType.inl 5) SliceType.xl 7))).committed.inl ≠ 5 ∧
      (fireDebounce (fireDebounce
          (handleSliceChange (handleSliceChange (initScheduler ⟨0, 0, 0⟩)
            SliceType.inl 5) SliceType.xl 7))).committed.xl = 7 ∧
      (fireDebounce (fireDebounce
          (handleSliceChange (handleSliceChange (initScheduler ⟨0, 0, 0⟩)
            SliceType.inl 5) SliceType.xl 7))).fetched = [(SliceType.xl, 7)] := by
  decide

/-- C2 as the code has it: `debounceTimerRef` is a single timer shared by all
three axes.  An index change on axis `t2` while axis `t1 ≠ t2` has a pending
timer cancels `t1`'s timer and re-arms the shared timer for `t2`; when the
timer then fires, only `t2` commits and fetches — `t1`'s committed index is
untouched no matter how many times the timer is allowed to fire. -/
theorem shared_debounce_cancels_other_axis (s : SchedulerState) (t1 t2 : SliceType)
    (i1 i2 : ℕ) (hne : t1 ≠ t2) :
    (handleSliceChange (handleSliceChange s t1 i1) t2 i2).timer = some (t2, i2) ∧
      (fireDebounce
          (handleSliceChange (handleSliceChange s t1 i1) t2 i2)).committed.get t1 =
        s.committed.get t1 ∧
      (fireDebounce
          (handleSliceChange (handleSliceChange s t1 i1) t2 i2)).committed.get t2 = i2 ∧
      (fireDebounce (handleSliceChange (handleSliceChange s t1 i1) t2 i2)).fetched =
        s.fetched ++ [(t2, i2)] ∧
      fireDebounce (fireDebounce (handleSliceChange (handleSliceChange s t1 i1) t2 i2)) =
        fireDebounce (handleSliceChange (handleSliceChange s t1 i1) t2 i2) := by
  cases t1 <;> cases t2 <;>
    simp_all [handleSliceChange, fireDebounce, SliceIndices.get, SliceIndices.set]

/-- Witness for `shared_debounce_cancels_other_axis` on the concrete trace of
the counterexample. -/
theorem shared_debounce_cancels_other_axis_witness :
    (fireDebounce (handleSliceChange (handleSliceChange (initScheduler ⟨0, 0, 0⟩)
          SliceType.inl 5) SliceType.xl 7)).committed.get SliceType.inl = 0 ∧
      (fireDebounce (handleSliceChange (handleSliceChange (initScheduler ⟨0, 0, 0⟩)
          SliceType.inl 5) SliceType.xl 7)).committed.get SliceType.xl = 7 := by
  have h := shared_debounce_cancels_other_axis (initScheduler ⟨0, 0, 0⟩)
    SliceType.inl SliceType.xl 5 7 (by decide)
  exact ⟨h.2.1, h.2.2.1⟩

/-! ## C8 and C9: camera compass -/

lemma atan2_zero_one : atan2 0 1 = 0 := by
  unfold atan2
  norm_num [Complex.arg_one]

lemma atan2_one_zero : atan2 1 0 = Real.pi / 2 := by
  unfold atan2
  norm_num [Complex.arg_I]

lemma cameraAzimuth_east (z : ℝ) : cameraAzimuth ⟨1, 0, z⟩ = 0 := by
  unfold cameraAzimuth
  show atan2 0 1 * (180 / Real.pi) = 0
  rw [atan2_zero_one]
  ring

lemma cameraAzimuth_north (z : ℝ) : cameraAzimuth ⟨0, 1, z⟩ = 90 := by
  unfold cameraAzimuth
  show atan2 1 0 * (180 / Real.pi) = 90
  rw [atan2_one_zero]
  field_simp
  ring

/-- C8: `updateCompass` displays `-(atan2(eye.y, eye.x) * 180/π) + 45` for
every camera eye; an eye on the positive x-axis has azimuth 0° (compass
45°), one on the positive y-axis has azimuth 90° (compass -45°), for any
eye height. -/
theorem compass_angle_formula :
    (∀ eye : CameraEye,
        updateCompass eye = -(atan2 eye.y eye.x * (180 / Real.pi)) + 45) ∧
      (∀ z : ℝ, cameraAzimuth ⟨1, 0, z⟩ = 0 ∧ updateCompass ⟨1, 0, z⟩ = 45) ∧
      ∀ z : ℝ, cameraAzimuth ⟨0, 1, z⟩ = 90 ∧ updateCompass ⟨0, 1, z⟩ = -45 := by
  refine ⟨fun eye => rfl, fun z => ⟨cameraAzimuth_east z, ?_⟩,
    fun z => ⟨cameraAzimuth_north z, ?_⟩⟩
  · unfold updateCompass
    rw [cameraAzimuth_east]
    norm_num
  · unfold updateCompass
    rw [cameraAzimuth_north]
    norm_num

/-- C9: a reconciliation-poll tick leaves the displayed compass rotation
unchanged whenever the expected angle recomputed from the camera eye is
within the 0.1° threshold of it, and any tick that does change the display
witnesses a deviation strictly above the threshold. -/
theorem poll_threshold_guards_update (eye : CameraEye) (r : ℝ) :
    (|(-cameraAzimuth eye + 45) - r| ≤ 1 / 10 → pollTick eye r = r) ∧
      (pollTick eye r ≠ r → |(-cameraAzimuth eye + 45) - r| > 1 / 10) := by
  constructor
  · intro h
    unfold pollTick
    rw [if_neg (not_lt.mpr h)]
  · intro h
    by_contra hc
    push_neg at hc
    refine h ?_
    unfold pollTick
    rw [if_neg (not_lt.mpr hc)]

/-- Witness for `poll_threshold_guards_update`: with the camera due east the
expected angle is exactly 45, so a display already at 45 is not touched. -/
theorem poll_threshold_guards_update_witness : pollTick ⟨1, 0, 1⟩ 45 = 45 := by
  apply (poll_threshold_guards_update ⟨1, 0, 1⟩ 45).1
  rw [cameraAzimuth_east]
  norm_num

/-! ## C3: degenerate orientation falls back -/

/-- C3: whenever the inline/crossline basis vectors have `|det| < ε` the
resolver returns the distinguishable fallback arrow — in particular for the
parallel pair `[1,0], [1,0]` with any positive ε — and on that path the
near-zero determinant is never used as a divisor (division by `det` occurs
only in the non-degenerate branch of `orientationResolve`). -/
theorem orientation_degenerate_fallback :
    (∀ (iv xv : ℚ × ℚ) (eps : ℚ), |iv.1 * xv.2 - iv.2 * xv.1| < eps →
        orientationResolve iv xv eps = NorthArrow.fallback) ∧
      ∀ eps : ℚ, 0 < eps → orientationResolve (1, 0) (1, 0) eps = NorthArrow.fallback := by
  have hmain : ∀ (iv xv : ℚ × ℚ) (eps : ℚ), |iv.1 * xv.2 - iv.2 * xv.1| < eps →
      orientationResolve iv xv eps = NorthArrow.fallback := by
    intro iv xv eps h
    unfold orientationResolve
    rw [if_pos h]
  refine ⟨hmain, fun eps he => hmain (1, 0) (1, 0) eps ?_⟩
  norm_num [he]

/-- Witness for `orientation_degenerate_fallback` at the degenerate basis
pair of the claim with `ε = 1/1000`. -/
theorem orientation_degenerate_fallback_witness :
    orientationResolve (1, 0) (1, 0) (1 / 1000) = NorthArrow.fallback := by
  exact orientation_degenerate_fallback.2 (1 / 1000) (by norm_num)

end SeismicViewer
